import Mathlib

/-!
Verification of the Korean-English oral-test data-analysis service
(`api_server.py`, `shared/constants.py`, `airflow/dags/daily_data_pipeline.py`).

Shallow embedding conventions:
* Python/JSON values reaching the extractor are modelled by `PyVal`
  (`None`, numbers, strings, dicts).  Machine floats that only carry
  data (ages, p-values, means) are modelled by `ℚ`.
* The scipy statistical routines (`pearsonr`, `spearmanr`, `f_oneway`,
  `ttest_ind`, `mannwhitneyu`, `chi2_contingency`) and `np.sqrt` are
  floating-point library calls; they are abstracted as an oracle
  parameter (`StatsOracle`) threaded through the evaluators, exactly at
  the call boundary the source uses.  Everything around them (filters,
  group partitions, means, sample-size gates, verdict rules) is
  computed concretely.
* S3 is modelled as the list of object keys it stores; `head_object`
  is key membership, `upload_file` appends the key (a transport
  failure of the underlying client is outside the model).
-/

/-- A Python value as seen by the extractor after `json.loads`:
`None`, an integer, a string, or a dict (association list, first
binding wins, mirroring unique-key Python dicts). -/
inductive PyVal where
  | vNone : PyVal
  | vInt : Int → PyVal
  | vStr : String → PyVal
  | vDict : List (String × PyVal) → PyVal
deriving Repr

/-- Python truthiness (`bool(v)`) for the values of `PyVal`:
`None` is falsy, `0` is falsy, `""` is falsy, `{}` is falsy. -/
def PyVal.truthy : PyVal → Bool
  | .vNone => false
  | .vInt n => n != 0
  | .vStr s => s != ""
  | .vDict [] => false
  | .vDict (_ :: _) => true

/-- Python `v == s` for a `PyVal` against a string literal: true only
when `v` is that string (values of other types never equal a `str`). -/
def PyVal.eqStr (v : PyVal) (s : String) : Bool :=
  match v with
  | .vStr t => t == s
  | _ => false

/-- Whether the value is Python `None` (what pandas `dropna` treats as
missing in an object column). -/
def PyVal.isNone : PyVal → Bool
  | .vNone => true
  | _ => false

/-- `v.get(key, dflt)`: succeeds when `v` is a dict (returning the
bound value or the default), raises `AttributeError` otherwise —
modelled as `Except Unit`. -/
def PyVal.get (v : PyVal) (key : String) (dflt : PyVal) : Except Unit PyVal :=
  match v with
  | .vDict es => .ok ((es.lookup key).getD dflt)
  | _ => .error ()

/-- `.items()` of a dict; raises on a non-dict receiver. -/
def PyVal.items : PyVal → Except Unit (List (String × PyVal))
  | .vDict es => .ok es
  | _ => .error ()

/-- `s.startswith(pre)` over the character lists (definitionally
computable form of `String.startsWith`). -/
def strStartsWith (s pre : String) : Bool :=
  pre.toList.isPrefixOf s.toList

/-- Digit list to `Nat` (most significant first). -/
def digitsVal (cs : List Char) : Nat :=
  cs.foldl (fun a c => a * 10 + (c.toNat - 48)) 0

/-- Decimal parser modelling Python `float(s)` on the plain decimal
strings the dataset carries: optional sign, then digits with an
optional fractional part, at least one digit overall (exotic float
syntax such as exponents or `inf` does not occur in the data and is
not modelled). `none` models `ValueError`. -/
def parseDecimal (s : String) : Option ℚ :=
  let cs := s.toList
  let signAndRest : ℚ × List Char :=
    match cs with
    | '-' :: rest => (-1, rest)
    | '+' :: rest => (1, rest)
    | _ => (1, cs)
  let body := signAndRest.2
  let intPart := body.takeWhile Char.isDigit
  let rest := body.dropWhile Char.isDigit
  match rest with
  | [] =>
    if intPart.isEmpty then none
    else some (signAndRest.1 * (digitsVal intPart : ℚ))
  | '.' :: frac =>
    if frac.all Char.isDigit && !(intPart.isEmpty && frac.isEmpty) then
      some (signAndRest.1 *
        ((digitsVal intPart : ℚ) + (digitsVal frac : ℚ) / (10 : ℚ) ^ frac.length))
    else none
  | _ => none

/-- Python `float(v)` on a `PyVal`: numbers convert, numeric strings
parse, everything else (`None`, dicts, non-numeric strings) raises —
modelled as `none`. -/
def pyFloat : PyVal → Option ℚ
  | .vInt n => some (n : ℚ)
  | .vStr s => parseDecimal s
  | _ => none

/- ===== Record Extractor (`api_server.py`, `extract_analysis_data`) ===== -/

/-- The flat record the extractor returns (the keys of the Python
`extracted` dict), before dataframe preprocessing. -/
structure ExtractedRow where
  participant_id : PyVal
  age : PyVal
  gender : PyVal
  location : PyVal
  english_level : PyVal
  self_grade : PyVal
  combo_scores : List (String × ℚ)
  interview : PyVal
  file_date : PyVal
  year : PyVal
deriving Repr

/-- The dict comprehension building `combo_scores`:
keep entries whose key starts with `Combo` and whose value is not the
empty string, converting with `float(v)` — a conversion failure
raises out of the comprehension (caught by the caller's
`except`), modelled as `Except`. -/
def comboScores : List (String × PyVal) → Except Unit (List (String × ℚ))
  | [] => .ok []
  | (k, v) :: rest =>
    if strStartsWith k "Combo" && !(v.eqStr "") then
      match pyFloat v with
      | some q => do
        let tail ← comboScores rest
        .ok ((k, q) :: tail)
      | none => .error ()
    else comboScores rest

/-- Possible outcomes of `extract_analysis_data`: a row, a `None`
from the completeness gate, or a `None` from the `except` branch
(logged as an extraction failure). -/
inductive ExtractResult where
  | row : ExtractedRow → ExtractResult
  | noRow : ExtractResult
  | extractError : ExtractResult
deriving Repr

/-- Whether the outcome carries a row. -/
def ExtractResult.isRow : ExtractResult → Bool
  | .row _ => true
  | _ => false

/-- The body of the `try` block of `extract_analysis_data`:
field accesses with defaults, then the completeness gate
`if not age or not location or not english_level: return None`. -/
def extractCore (data : PyVal) : Except Unit (Option ExtractedRow) := do
  let speaker ← data.get "speaker" (.vDict [])
  let pid ← speaker.get "id" (.vStr "")
  let age ← speaker.get "age" .vNone
  let gender ← speaker.get "gender" (.vStr "")
  let location ← speaker.get "location" (.vStr "")
  let levelBlock ← speaker.get "level" (.vDict [])
  let english_level ← levelBlock.get "final" (.vStr "")
  let self_grade ← speaker.get "self_grade" (.vStr "")
  let levelEntries ← levelBlock.items
  let combos ← comboScores levelEntries
  let interview ← speaker.get "interview" (.vDict [])
  let metadata ← data.get "metadata" (.vDict [])
  let file_date ← metadata.get "date" (.vStr "")
  let year ← metadata.get "year" (.vStr "")
  if !age.truthy || !location.truthy || !english_level.truthy then
    return none
  return some
    { participant_id := pid, age := age, gender := gender, location := location,
      english_level := english_level, self_grade := self_grade, combo_scores := combos,
      interview := interview, file_date := file_date, year := year }

/-- `extract_analysis_data`: run the `try` body; a raised exception is
caught, logged and turned into `None` (`extractError` here, so the two
`None` sources stay distinguishable in the model). -/
def extract_analysis_data (data : PyVal) : ExtractResult :=
  match extractCore data with
  | .error _ => .extractError
  | .ok none => .noRow
  | .ok (some r) => .row r

/- ===== Feature Deriver (`api_server.py` / `shared/constants.py`) ===== -/

/-- `LEVEL_MAPPING`: the fixed level→numeric lookup table (lower
number = lower proficiency rank in the inverted scale); a key outside
the table has no entry (`none`, pandas `NaN` after `Series.map`). -/
def LEVEL_MAPPING (s : String) : Option ℕ :=
  if s = "IG" then some 1
  else if s = "TL" then some 2
  else if s = "TM" then some 3
  else if s = "TH" then some 4
  else if s = "NA" then some 5
  else none

/-- `Series.map(LEVEL_MAPPING)` on one cell: a string looks up the
table, a non-string value has no entry. -/
def mapLevel : PyVal → Option ℕ
  | .vStr s => LEVEL_MAPPING s
  | _ => none

/-- Python `int(q)` on a finite float: truncation toward zero. -/
def pyInt (q : ℚ) : Int := Int.tdiv q.num q.den

/-- `create_age_groups`: `NaN` (absent / non-numeric after coercion)
gives the `"미상"` sentinel, otherwise `int(age)` is bucketed by the
chain `<25`, `<30`, `<35`, `<40`, else. -/
def create_age_groups (age : Option ℚ) : String :=
  match age with
  | none => "미상"
  | some q =>
    let a := pyInt q
    if a < 25 then "20대 초반"
    else if a < 30 then "20대 후반"
    else if a < 35 then "30대 초반"
    else if a < 40 then "30대 후반"
    else "40대 이상"

/-- Substring test on character lists (Python `area in location`). -/
def strContains (hay needle : String) : Bool :=
  (List.range (hay.toList.length + 1)).any
    (fun i => needle.toList.isPrefixOf (hay.toList.drop i))

/-- `classify_metropolitan`: non-strings are `False`; a string is
metropolitan iff it contains `"서울"` or `"경기"` as a substring. -/
def classify_metropolitan : PyVal → Bool
  | .vStr s => strContains s "서울" || strContains s "경기"
  | _ => false

/-- `extract_english_experience`: `True` iff the interview block is a
dict whose `"영어권_거주_여부"` entry equals the string `"있음"`. -/
def extract_english_experience : PyVal → Bool
  | .vDict es => ((es.lookup "영어권_거주_여부").getD (.vStr "")).eqStr "있음"
  | _ => false

/-- `pd.to_numeric(x, errors="coerce")` on one cell: numbers pass
through, numeric strings parse, anything else becomes `NaN`. -/
def to_numeric : PyVal → Option ℚ
  | .vInt n => some (n : ℚ)
  | .vStr s => parseDecimal s
  | _ => none

/- ===== Dataset Builder (`preprocess_dataframe` + load loop) ===== -/

/-- A row of the preprocessed master table: the extracted columns plus
the derived columns, after `dropna(subset=["age",
"english_level_numeric", "location"])` (so `age` and
`english_level_numeric` are the present numeric values). -/
structure PRow where
  participant_id : PyVal
  age : ℚ
  gender : PyVal
  location : PyVal
  english_level : PyVal
  english_level_numeric : ℕ
  self_grade : PyVal
  combo_scores : List (String × ℚ)
  interview : PyVal
  age_group : String
  is_metropolitan : Bool
  english_speaking_experience : Bool
  file_date : PyVal
  year : PyVal
deriving Repr

/-- `preprocess_dataframe` on a single extracted row: coerce `age`,
map the level, derive `age_group` / `is_metropolitan` /
`english_speaking_experience`, then keep the row only if `age`,
`english_level_numeric` and `location` are all non-missing. -/
def preprocessRow (r : ExtractedRow) : Option PRow :=
  let ageN := to_numeric r.age
  let lvlN := mapLevel r.english_level
  match ageN, lvlN with
  | some a, some l =>
    if r.location.isNone then none
    else some
      { participant_id := r.participant_id, age := a, gender := r.gender,
        location := r.location, english_level := r.english_level,
        english_level_numeric := l, self_grade := r.self_grade,
        combo_scores := r.combo_scores, interview := r.interview,
        age_group := create_age_groups (some a),
        is_metropolitan := classify_metropolitan r.location,
        english_speaking_experience := extract_english_experience r.interview,
        file_date := r.file_date, year := r.year }
  | _, _ => none

/-- `preprocess_dataframe` over the whole extracted table. -/
def preprocess_dataframe (rows : List ExtractedRow) : List PRow :=
  rows.filterMap preprocessRow

/-- The row-building loop of `load_all_participant_data` restricted to
its pure core: extract every fetched record, keep the rows, then
preprocess (S3 listing/fetching is I/O outside the model; `records`
stands for the parsed representative JSON objects). -/
def load_all_rows (records : List PyVal) : List PRow :=
  preprocess_dataframe
    (records.filterMap (fun d =>
      match extract_analysis_data d with
      | .row r => some r
      | _ => none))

/- ===== Filter Engine (`apply_filters`) ===== -/

/-- `FilterRequest`: every field optional (Pydantic defaults to
`None`). -/
structure FilterRequest where
  age_min : Option Int := none
  age_max : Option Int := none
  locations : Option (List String) := none
  levels : Option (List String) := none
deriving Repr

/-- `apply_filters`: the four clauses applied in sequence; the age
clauses fire on `is not None`, the allow-list clauses on Python
truthiness (so `None` and `[]` both skip). -/
def apply_filters (df : List PRow) (filters : FilterRequest) : List PRow :=
  let d1 := match filters.age_min with
    | some m => df.filter (fun r => decide ((m : ℚ) ≤ r.age))
    | none => df
  let d2 := match filters.age_max with
    | some m => d1.filter (fun r => decide (r.age ≤ (m : ℚ)))
    | none => d1
  let d3 := match filters.locations with
    | some ls =>
      if ls.isEmpty then d2
      else d2.filter (fun r => ls.any (fun s => r.location.eqStr s))
    | none => d2
  match filters.levels with
  | some ls =>
    if ls.isEmpty then d3
    else d3.filter (fun r => ls.any (fun s => r.english_level.eqStr s))
  | none => d3

/-- The row predicate `apply_filters` effectively decides: the AND of
the four clauses, a clause passing trivially when its field is unset
or its allow-list is empty. -/
def filterPred (filters : FilterRequest) (r : PRow) : Bool :=
  (match filters.levels with
      | some ls => ls.isEmpty || ls.any (fun s => r.english_level.eqStr s)
      | none => true) &&
  ((match filters.locations with
      | some ls => ls.isEmpty || ls.any (fun s => r.location.eqStr s)
      | none => true) &&
   ((match filters.age_max with
      | some m => decide (r.age ≤ (m : ℚ))
      | none => true) &&
    (match filters.age_min with
      | some m => decide ((m : ℚ) ≤ r.age)
      | none => true)))

/-- Modelled from the spec (refinement comparison for the Filter
Engine): the predicate the spec's words describe, where each clause is
"a no-op when its field is unset" only — an allow-list that is set,
even to the empty list, is enforced as membership. -/
def filterPredSpec (filters : FilterRequest) (r : PRow) : Bool :=
  (((match filters.age_min with
      | some m => decide ((m : ℚ) ≤ r.age)
      | none => true) &&
    (match filters.age_max with
      | some m => decide (r.age ≤ (m : ℚ))
      | none => true)) &&
   (match filters.locations with
      | some ls => ls.any (fun s => r.location.eqStr s)
      | none => true)) &&
  (match filters.levels with
      | some ls => ls.any (fun s => r.english_level.eqStr s)
      | none => true)

/-- Modelled from the spec: the Filter Engine as the spec's words
state it (rows satisfying the logical AND of all set clauses). -/
def apply_filters_spec (df : List PRow) (filters : FilterRequest) : List PRow :=
  df.filter (filterPredSpec filters)

/- ===== Hypothesis Evaluators ===== -/

/-- `Series.mean()`. The filtered groups the evaluators feed in are
nonempty (sample-size gate), so the `0/0` disagreement with pandas
`NaN` on `[]` is unreachable. -/
def seriesMean (l : List ℚ) : ℚ := l.sum / (l.length : ℚ)

/-- `Series.var()` (pandas default `ddof=1`); the `n ≤ 1` degenerate
case is unreachable under the ≥5-per-group gate. -/
def seriesVar (l : List ℚ) : ℚ :=
  (l.map (fun x => (x - seriesMean l) ^ 2)).sum / ((l.length : ℚ) - 1)

/-- The floating-point library calls of the evaluators, abstracted at
exactly the call boundary `api_server.py` uses: each scipy routine is
an opaque function of the numeric samples handed to it, and `np.sqrt`
is an opaque function of its radicand. `chi2_contingency` is taken
together with the `pd.crosstab` construction, as a function of the
(flag, level) column pairs it tabulates. -/
structure StatsOracle where
  pearsonr : List ℚ → List ℚ → ℚ × ℚ
  spearmanr : List ℚ → List ℚ → ℚ × ℚ
  f_oneway : List (List ℚ) → ℚ × ℚ
  ttest_ind : List ℚ → List ℚ → ℚ × ℚ
  mannwhitneyu : List ℚ → List ℚ → ℚ × ℚ
  chi2_pairs : List (Bool × PyVal) → ℚ × ℚ
  np_sqrt : ℚ → ℚ

/-- `calculate_effect_size`: Cohen's d with the degrees-of-freedom
adjusted pooled standard deviation (`np.sqrt` from the oracle). -/
def calculate_effect_size (sqrtF : ℚ → ℚ) (group1 group2 : List ℚ) : ℚ :=
  let n1 : ℚ := group1.length
  let n2 : ℚ := group2.length
  let pooled_std := sqrtF (((n1 - 1) * seriesVar group1 + (n2 - 1) * seriesVar group2) / (n1 + n2 - 2))
  (seriesMean group1 - seriesMean group2) / pooled_std

/-- `interpret_effect_size`: the fixed 4-tier banding of `|d|`. -/
def interpret_effect_size (d : ℚ) : String :=
  let abs_d := |d|
  if abs_d < 1/5 then "작은 효과"
  else if abs_d < 1/2 then "중간 효과"
  else if abs_d < 4/5 then "큰 효과"
  else "매우 큰 효과"

/-- A value of the heterogeneous `statistics` dict. -/
inductive StatVal where
  | num : ℚ → StatVal
  | str : String → StatVal
deriving Repr

/-- The `HypothesisResult` response model (`statistics` kept as the
association list standing for the `Dict[str, Any]`; the
`age_group_stats` summary sub-table of H1, a float aggregate never
read by any verified property, is left out of the dict). -/
structure HypothesisResult where
  hypothesis : String
  result : String
  p_value : ℚ
  effect_size : Option ℚ := none
  correlation : Option ℚ := none
  statistics : List (String × StatVal)
  conclusion : String
deriving Repr

/-- Projection used by theorem statements: the verdict string of a
successful evaluation (an error keeps its message, which is never one
of the three verdict strings). -/
def verdictOf : Except String HypothesisResult → String
  | .ok r => r.result
  | .error e => e

/-- Projection used by theorem statements: one entry of the
`statistics` dict of a successful evaluation. -/
def statOf (e : Except String HypothesisResult) (key : String) : Option StatVal :=
  match e with
  | .ok r => r.statistics.lookup key
  | .error _ => none

/-- Whether the evaluation succeeded. -/
def evalOk : Except String HypothesisResult → Bool
  | .ok _ => true
  | .error _ => false

/-- The verdict conditional shared verbatim by `analyze_hypothesis2`
and `analyze_hypothesis3` (api_server.py:437 and :491): rejected when
significant with group-1 mean above group-2 mean, accepted when
significant with group-1 mean below, inconclusive otherwise. -/
def groupVerdict (p mean1 mean2 : ℚ) : String :=
  if p < 1/20 ∧ mean1 > mean2 then "기각"
  else if p < 1/20 ∧ mean1 < mean2 then "채택"
  else "판단불가"

/-- The numeric-level sample of the metropolitan group of the
filtered table (`df_filtered[df_filtered['is_metropolitan'] ==
True]['english_level_numeric']`). -/
def metro_scores (df : List PRow) (filters : FilterRequest) : List ℚ :=
  ((apply_filters df filters).filter (fun r => r.is_metropolitan == true)).map
    (fun r => (r.english_level_numeric : ℚ))

/-- The non-metropolitan counterpart. -/
def non_metro_scores (df : List PRow) (filters : FilterRequest) : List ℚ :=
  ((apply_filters df filters).filter (fun r => r.is_metropolitan == false)).map
    (fun r => (r.english_level_numeric : ℚ))

/-- The numeric-level sample of the experienced group
(`english_speaking_experience == True`). -/
def exp_scores (df : List PRow) (filters : FilterRequest) : List ℚ :=
  ((apply_filters df filters).filter (fun r => r.english_speaking_experience == true)).map
    (fun r => (r.english_level_numeric : ℚ))

/-- The no-experience counterpart. -/
def no_exp_scores (df : List PRow) (filters : FilterRequest) : List ℚ :=
  ((apply_filters df filters).filter (fun r => r.english_speaking_experience == false)).map
    (fun r => (r.english_level_numeric : ℚ))

/-- `df_filtered['age_group'].unique()` (`.dedup` stands for pandas
`unique()`: only the set of distinct groups feeds the branch condition
and the partition). -/
def age_groups_of (df : List PRow) (filters : FilterRequest) : List String :=
  ((apply_filters df filters).map (fun r => r.age_group)).dedup

/-- The per-group numeric-level samples handed to `f_oneway`. -/
def anova_groups (df : List PRow) (filters : FilterRequest) : List (List ℚ) :=
  (age_groups_of df filters).map (fun g =>
    ((apply_filters df filters).filter (fun r => r.age_group == g)).map
      (fun r => (r.english_level_numeric : ℚ)))

/-- `analyze_hypothesis1` (age vs. level): ≥10-row gate, Pearson /
Spearman, ANOVA over the `age_group` partition with the `(0, 1)`
single-group fallback, verdict from the Pearson p-value and sign. -/
def analyze_hypothesis1 (st : StatsOracle) (df : List PRow)
    (filters : FilterRequest) : Except String HypothesisResult :=
  let d := apply_filters df filters
  if d.length < 10 then .error "분석에 충분한 데이터가 없습니다."
  else
    let ages := d.map (fun r => r.age)
    let lvls := d.map (fun r => (r.english_level_numeric : ℚ))
    let pearson := st.pearsonr ages lvls
    let spearman := st.spearmanr ages lvls
    let anova :=
      if 1 < (age_groups_of df filters).length then st.f_oneway (anova_groups df filters)
      else ((0 : ℚ), (1 : ℚ))
    .ok
      { hypothesis := "연령대가 낮을수록 점수가 높을 것이다"
        result :=
          if pearson.2 < 1/20 ∧ pearson.1 < 0 then "기각"
          else if pearson.2 < 1/20 ∧ pearson.1 > 0 then "채택"
          else "판단불가"
        p_value := pearson.2
        correlation := some pearson.1
        statistics :=
          [("pearson_correlation", .num pearson.1),
           ("pearson_p_value", .num pearson.2),
           ("spearman_correlation", .num spearman.1),
           ("spearman_p_value", .num spearman.2),
           ("anova_f_stat", .num anova.1),
           ("anova_p_value", .num anova.2)]
        conclusion :=
          if pearson.2 < 1/20 then
            if pearson.1 < 0 then "가설 기각: 연령대가 높을수록 영어 실력이 더 좋습니다."
            else "가설 채택: 연령대가 낮을수록 영어 실력이 더 좋습니다."
          else "가설 판단 불가: 연령과 영어 실력 간 유의한 관계가 없습니다." }

/-- `analyze_hypothesis2` (metropolitan vs. non-metropolitan):
partition by `is_metropolitan`, ≥5-per-group gate, t-test / Cohen's d
/ Mann-Whitney / chi-square, verdict from the t-test p-value and the
group means. -/
def analyze_hypothesis2 (st : StatsOracle) (df : List PRow)
    (filters : FilterRequest) : Except String HypothesisResult :=
  if (metro_scores df filters).length < 5 ∨ (non_metro_scores df filters).length < 5 then
    .error "각 그룹에 충분한 데이터가 없습니다."
  else
    let ttest := st.ttest_ind (metro_scores df filters) (non_metro_scores df filters)
    let effect_size :=
      calculate_effect_size st.np_sqrt (metro_scores df filters) (non_metro_scores df filters)
    let mw := st.mannwhitneyu (metro_scores df filters) (non_metro_scores df filters)
    let chi2 := st.chi2_pairs
      ((apply_filters df filters).map (fun r => (r.is_metropolitan, r.english_level)))
    .ok
      { hypothesis := "수도권일수록 점수가 높을 것이다"
        result := groupVerdict ttest.2 (seriesMean (metro_scores df filters))
          (seriesMean (non_metro_scores df filters))
        p_value := ttest.2
        effect_size := some effect_size
        statistics :=
          [("metro_mean", .num (seriesMean (metro_scores df filters))),
           ("non_metro_mean", .num (seriesMean (non_metro_scores df filters))),
           ("metro_count", .num ((metro_scores df filters).length : ℚ)),
           ("non_metro_count", .num ((non_metro_scores df filters).length : ℚ)),
           ("t_statistic", .num ttest.1),
           ("t_p_value", .num ttest.2),
           ("effect_size", .num effect_size),
           ("effect_interpretation", .str (interpret_effect_size effect_size)),
           ("mannwhitney_u", .num mw.1),
           ("mannwhitney_p", .num mw.2),
           ("chi_square", .num chi2.1),
           ("chi_square_p", .num chi2.2)]
        conclusion :=
          if ttest.2 < 1/20 then
            if seriesMean (metro_scores df filters) < seriesMean (non_metro_scores df filters) then
              "가설 채택: 수도권이 비수도권보다 영어 실력이 높습니다."
            else "가설 기각: 비수도권이 수도권보다 영어 실력이 높습니다."
          else "가설 판단 불가: 수도권과 비수도권 간 유의한 차이가 없습니다." }

/-- `analyze_hypothesis3` (English-speaking-region residence):
identical battery and verdict polarity as H2, partitioned by
`english_speaking_experience`. -/
def analyze_hypothesis3 (st : StatsOracle) (df : List PRow)
    (filters : FilterRequest) : Except String HypothesisResult :=
  if (exp_scores df filters).length < 5 ∨ (no_exp_scores df filters).length < 5 then
    .error "각 그룹에 충분한 데이터가 없습니다."
  else
    let ttest := st.ttest_ind (exp_scores df filters) (no_exp_scores df filters)
    let effect_size :=
      calculate_effect_size st.np_sqrt (exp_scores df filters) (no_exp_scores df filters)
    let mw := st.mannwhitneyu (exp_scores df filters) (no_exp_scores df filters)
    let chi2 := st.chi2_pairs
      ((apply_filters df filters).map (fun r => (r.english_speaking_experience, r.english_level)))
    .ok
      { hypothesis := "영어권 거주 경험이 있을수록 점수가 높을 것이다"
        result := groupVerdict ttest.2 (seriesMean (exp_scores df filters))
          (seriesMean (no_exp_scores df filters))
        p_value := ttest.2
        effect_size := some effect_size
        statistics :=
          [("experience_mean", .num (seriesMean (exp_scores df filters))),
           ("no_experience_mean", .num (seriesMean (no_exp_scores df filters))),
           ("experience_count", .num ((exp_scores df filters).length : ℚ)),
           ("no_experience_count", .num ((no_exp_scores df filters).length : ℚ)),
           ("t_statistic", .num ttest.1),
           ("t_p_value", .num ttest.2),
           ("effect_size", .num effect_size),
           ("effect_interpretation", .str (interpret_effect_size effect_size)),
           ("mannwhitney_u", .num mw.1),
           ("mannwhitney_p", .num mw.2),
           ("chi_square", .num chi2.1),
           ("chi_square_p", .num chi2.2)]
        conclusion :=
          if ttest.2 < 1/20 then
            if seriesMean (exp_scores df filters) < seriesMean (no_exp_scores df filters) then
              "가설 채택: 영어권 거주 경험이 있는 사람들의 영어 실력이 더 높습니다."
            else "가설 기각: 영어권 거주 경험이 없는 사람들의 영어 실력이 더 높습니다."
          else "가설 판단 불가: 영어권 거주 경험에 따른 유의한 차이가 없습니다." }


/- ===== Ingestion Stager (`daily_data_pipeline.py`, `upload_to_s3`) ===== -/

/-- One matching file as `find_files_by_date` reports it. -/
structure FileInfo where
  fileName : String
  level : String
  participant : String
  date : String
deriving Repr

/-- Gregorian leap-year test. -/
def isLeap (y : ℕ) : Bool := (y % 4 == 0 && y % 100 != 0) || y % 400 == 0

/-- Days in a month. -/
def daysInMonth (y m : ℕ) : ℕ :=
  if m == 2 then (if isLeap y then 29 else 28)
  else if m == 4 || m == 6 || m == 9 || m == 11 then 30
  else 31

/-- `is_valid_yyyymmdd`: `datetime.strptime(s, "%Y%m%d")` succeeds
exactly on 8-digit strings encoding a calendar-valid date. -/
def is_valid_yyyymmdd (s : String) : Bool :=
  let cs := s.toList
  cs.length == 8 && cs.all Char.isDigit &&
    (let y := digitsVal (cs.take 4)
     let m := digitsVal ((cs.drop 4).take 2)
     let d := digitsVal (cs.drop 6)
     1 ≤ m && m ≤ 12 && 1 ≤ d && d ≤ daysInMonth y m)

/-- The deterministic storage key: `raw/year=YYYY/month=MM/day=DD/
level=LL/participant/filename` from the date slices and file
metadata. -/
def s3Key (fi : FileInfo) : String :=
  "raw/year=" ++ (fi.date.take 4) ++
  "/month=" ++ ((fi.date.drop 4).take 2) ++
  "/day=" ++ ((fi.date.drop 6).take 2) ++
  "/level=" ++ fi.level ++
  "/" ++ fi.participant ++
  "/" ++ fi.fileName

/-- The upload loop of `upload_to_s3` over the matching files: skip a
file whose date fails re-validation, skip (without counting) a file
whose key already exists (`head_object` succeeding), otherwise store
the key and count it. The store is the list of existing S3 keys; the
network transport of `upload_file` is outside the model. -/
def upload_to_s3 (store : List String) (files : List FileInfo) : List String × ℕ :=
  files.foldl
    (fun st fi =>
      if !(is_valid_yyyymmdd fi.date) then st
      else if s3Key fi ∈ st.1 then st
      else (st.1 ++ [s3Key fi], st.2 + 1))
    (store, 0)

/- ===== Extractor access paths and validity predicates ===== -/

/-- The access path of the extractor's `age` field
(`data.get('speaker', {}).get('age')`). -/
def resolveAge (data : PyVal) : Except Unit PyVal := do
  (← data.get "speaker" (.vDict [])).get "age" .vNone

/-- The access path of the extractor's `location` field. -/
def resolveLocation (data : PyVal) : Except Unit PyVal := do
  (← data.get "speaker" (.vDict [])).get "location" (.vStr "")

/-- The access path of the extractor's `english_level` field
(`speaker.get('level', {}).get('final', '')`). -/
def resolveLevel (data : PyVal) : Except Unit PyVal := do
  (← (← data.get "speaker" (.vDict [])).get "level" (.vDict [])).get "final" (.vStr "")

/-- Modelled from the spec: "structurally invalid input (e.g., the
input is not a mapping at all)" — a record is structurally valid when
the record itself and every nested block the extractor calls a method
on (the speaker block, its level block, the metadata block) is a
mapping, present or defaulted. -/
def structurallyValid (data : PyVal) : Bool :=
  match data with
  | .vDict es =>
    (match (es.lookup "speaker").getD (.vDict []) with
      | .vDict ses =>
        (match (ses.lookup "level").getD (.vDict []) with
          | .vDict _ => true
          | _ => false)
      | _ => false) &&
    (match (es.lookup "metadata").getD (.vDict []) with
      | .vDict _ => true
      | _ => false)
  | _ => false

/-- A combo entry on which `float(v)` raises: key named `Combo…`,
value not the empty string, value not float-parsable. -/
def badComboEntry (kv : String × PyVal) : Bool :=
  strStartsWith kv.1 "Combo" && !(kv.2.eqStr "") && (pyFloat kv.2).isNone

/-- Whether the record's level block holds an entry on which the
combo-scores comprehension raises. -/
def hasBadCombo (data : PyVal) : Bool :=
  match data with
  | .vDict es =>
    match (es.lookup "speaker").getD (.vDict []) with
    | .vDict ses =>
      match (ses.lookup "level").getD (.vDict []) with
      | .vDict les => les.any badComboEntry
      | _ => false
    | _ => false
  | _ => false

/- ===== Concrete inputs used by witnesses and counterexamples ===== -/

/-- A concrete preprocessed row (Seoul, level IG) used by concrete
statements. -/
def rowSeoulIG : PRow :=
  { participant_id := .vStr "p1", age := 30, gender := .vStr "",
    location := .vStr "서울", english_level := .vStr "IG",
    english_level_numeric := 1, self_grade := .vStr "", combo_scores := [],
    interview := .vDict [], age_group := "30대 초반", is_metropolitan := true,
    english_speaking_experience := false, file_date := .vStr "", year := .vStr "" }

/-- A raw record whose extraction and preprocessing yield exactly
`rowSeoulIG` up to identity fields: used to witness table-level
statements on a nonempty built table. -/
def recSeoulIG : PyVal :=
  .vDict [("speaker", .vDict
    [("id", .vStr "p1"), ("age", .vInt 30), ("location", .vStr "서울"),
     ("level", .vDict [("final", .vStr "IG")])])]

/-- A structurally valid record (every block a mapping) whose level
block carries a non-empty, non-parsable combo value. -/
def recBadCombo : PyVal :=
  .vDict [("speaker", .vDict
    [("age", .vInt 30), ("location", .vStr "서울"),
     ("level", .vDict [("final", .vStr "IG"), ("Combo1", .vStr "abc")])])]

/-- A record whose speaker block has no `location` key. -/
def recNoLocation : PyVal :=
  .vDict [("speaker", .vDict
    [("age", .vInt 30), ("level", .vDict [("final", .vStr "IG")])])]

/-- An otherwise complete record whose age is the integer 0. -/
def recAgeZero : PyVal :=
  .vDict [("speaker", .vDict
    [("age", .vInt 0), ("location", .vStr "서울"),
     ("level", .vDict [("final", .vStr "IG")])])]

/-- An otherwise complete record whose age is the empty string. -/
def recAgeEmpty : PyVal :=
  .vDict [("speaker", .vDict
    [("age", .vStr ""), ("location", .vStr "서울"),
     ("level", .vDict [("final", .vStr "IG")])])]

/-- Oracle returning the neutral pair `(0, 1)` everywhere (p-value 1:
nothing significant). -/
def constOracle : StatsOracle :=
  { pearsonr := fun _ _ => (0, 1), spearmanr := fun _ _ => (0, 1),
    f_oneway := fun _ => (0, 1), ttest_ind := fun _ _ => (0, 1),
    mannwhitneyu := fun _ _ => (0, 1), chi2_pairs := fun _ => (0, 1),
    np_sqrt := fun _ => 0 }

/-- `constOracle` with a different (nonzero) ANOVA answer, to witness
that the single-group response never consults the ANOVA oracle. -/
def constOracle2 : StatsOracle :=
  { pearsonr := fun _ _ => (0, 1), spearmanr := fun _ _ => (0, 1),
    f_oneway := fun _ => (7, 7), ttest_ind := fun _ _ => (0, 1),
    mannwhitneyu := fun _ _ => (0, 1), chi2_pairs := fun _ => (0, 1),
    np_sqrt := fun _ => 0 }

/-- Row constructor for concrete test tables. -/
def mkRow (a : ℚ) (metro expe : Bool) (ag : String) : PRow :=
  { participant_id := .vStr "", age := a, gender := .vStr "",
    location := .vStr (if metro then "서울" else "부산"),
    english_level := .vStr "IG", english_level_numeric := 1,
    self_grade := .vStr "", combo_scores := [], interview := .vDict [],
    age_group := ag, is_metropolitan := metro,
    english_speaking_experience := expe, file_date := .vStr "", year := .vStr "" }

/-- Ten rows: 5 metropolitan (all with residence experience) and 5
non-metropolitan (none with experience), one shared age group. -/
def wdf10 : List PRow :=
  [mkRow 30 true true "30대 초반", mkRow 30 true true "30대 초반",
   mkRow 30 true true "30대 초반", mkRow 30 true true "30대 초반",
   mkRow 30 true true "30대 초반", mkRow 30 false false "30대 초반",
   mkRow 30 false false "30대 초반", mkRow 30 false false "30대 초반",
   mkRow 30 false false "30대 초반", mkRow 30 false false "30대 초반"]

/-- Ten rows split over two age groups. -/
def wdf10b : List PRow :=
  [mkRow 22 true true "20대 초반", mkRow 22 true true "20대 초반",
   mkRow 22 true true "20대 초반", mkRow 22 true true "20대 초반",
   mkRow 22 true true "20대 초반", mkRow 30 false false "30대 초반",
   mkRow 30 false false "30대 초반", mkRow 30 false false "30대 초반",
   mkRow 30 false false "30대 초반", mkRow 30 false false "30대 초반"]

/-- A concrete matching file. -/
def wfile : FileInfo :=
  { fileName := "a.json", level := "IG", participant := "ESPEAK_0001", date := "20250801" }

/- ===== Shared lemmas ===== -/

/-- `pyInt` (Python `int()`) is the identity on integers cast to
`ℚ`. -/
theorem pyInt_intCast (a : ℤ) : pyInt ((a : ℤ) : ℚ) = a := by
  simp [pyInt]

/-- `apply_filters` filters by the conjunction of the four clauses
(`filterPred`). -/
theorem apply_filters_eq_filter (df : List PRow) (fl : FilterRequest) :
    apply_filters df fl = df.filter (fun r => filterPred fl r) := by
  obtain ⟨am, ax, ls, vs⟩ := fl
  rcases ls with _ | (_ | ⟨l1, lt⟩) <;> rcases vs with _ | (_ | ⟨v1, vt⟩) <;>
    rcases am with _ | m1 <;> rcases ax with _ | m2 <;>
    simp [apply_filters, filterPred, List.filter_filter,
      Bool.and_comm, Bool.and_left_comm, Bool.and_assoc]

/- ===== Claims about the Filter Engine ===== -/

/-- **C4** (counterexample): the claim as stated fails at a predicate
whose location allow-list is set but empty — `apply_filters` keeps the
row, while the logical AND of all *set* clauses (the spec-worded
`apply_filters_spec`) keeps nothing. -/
theorem apply_filters_set_empty_list_counterexample :
    apply_filters [rowSeoulIG] { locations := some [] } = [rowSeoulIG] ∧
    apply_filters_spec [rowSeoulIG] { locations := some [] } = [] := by
  exact ⟨rfl, rfl⟩

/-- **C4** (amended): `apply_filters` returns exactly the rows
satisfying the AND of the four clauses, where a clause is a no-op when
its field is unset *or its allow-list is empty*; the result is an
order-preserving sublist of the (unmutated) input, the 25/35 age-bound
composition collapses to the combined predicate, and filtering is
idempotent. -/
theorem apply_filters_and_of_clauses :
    ∀ (df : List PRow) (fl : FilterRequest),
      apply_filters df fl = df.filter (fun r => filterPred fl r) ∧
      (apply_filters df fl).Sublist df ∧
      apply_filters (apply_filters df { age_min := some 25 }) { age_max := some 35 }
        = apply_filters df { age_min := some 25, age_max := some 35 } ∧
      apply_filters (apply_filters df fl) fl = apply_filters df fl := by
  intro df fl
  refine ⟨apply_filters_eq_filter df fl, ?_, ?_, ?_⟩
  · rw [apply_filters_eq_filter]
    exact List.filter_sublist df
  · rw [apply_filters_eq_filter, apply_filters_eq_filter, apply_filters_eq_filter,
      List.filter_filter]
    exact List.filter_congr (fun r _ => by simp [filterPred])
  · rw [apply_filters_eq_filter df fl, apply_filters_eq_filter, List.filter_filter]
    exact List.filter_congr (fun r _ => by simp)

/-- **C10**: a set-but-empty location or level allow-list is treated
exactly like an absent one — the clause is skipped (Python truthiness
of the list), so every row of the table comes back. -/
theorem apply_filters_empty_allowlist_noop :
    ∀ df : List PRow,
      apply_filters df { locations := some [] } = df ∧
      apply_filters df { levels := some [] } = df ∧
      apply_filters df { locations := some [], levels := some [] } = df := by
  intro df
  exact ⟨rfl, rfl, rfl⟩

/- ===== Claims about the Feature Deriver ===== -/

/-- **C5**: the level→numeric table sends IG,TL,TM,TH,NA to
1,2,3,4,5 exactly, is injective on these five codes, gives no rank to
any other string, and every row of a built table carries the numeric
rank of its own categorical level. -/
theorem level_mapping_exact :
    (LEVEL_MAPPING "IG" = some 1 ∧ LEVEL_MAPPING "TL" = some 2 ∧
     LEVEL_MAPPING "TM" = some 3 ∧ LEVEL_MAPPING "TH" = some 4 ∧
     LEVEL_MAPPING "NA" = some 5) ∧
    (∀ a ∈ ["IG", "TL", "TM", "TH", "NA"], ∀ b ∈ ["IG", "TL", "TM", "TH", "NA"],
      LEVEL_MAPPING a = LEVEL_MAPPING b → a = b) ∧
    (∀ s : String, s ∉ ["IG", "TL", "TM", "TH", "NA"] → LEVEL_MAPPING s = none) ∧
    (∀ recs : List PyVal, ∀ r ∈ load_all_rows recs,
      mapLevel r.english_level = some r.english_level_numeric) := by
  refine ⟨⟨by simp [LEVEL_MAPPING], by simp [LEVEL_MAPPING], by simp [LEVEL_MAPPING],
    by simp [LEVEL_MAPPING], by simp [LEVEL_MAPPING]⟩, ?_, ?_, ?_⟩
  · intro a ha b hb h
    fin_cases ha <;> fin_cases hb <;> simp_all [LEVEL_MAPPING]
  · intro s hs
    simp only [List.mem_cons, List.not_mem_nil, or_false, not_or] at hs
    obtain ⟨h1, h2, h3, h4, h5⟩ := hs
    simp [LEVEL_MAPPING, h1, h2, h3, h4, h5]
  · intro recs r hr
    simp only [load_all_rows, preprocess_dataframe, List.mem_filterMap] at hr
    obtain ⟨er, -, hpr⟩ := hr
    unfold preprocessRow at hpr
    rcases h1 : to_numeric er.age with _ | a <;> rw [h1] at hpr <;>
      rcases h2 : mapLevel er.english_level with _ | l <;> rw [h2] at hpr <;>
      simp only [] at hpr
    · exact absurd hpr (by simp)
    · exact absurd hpr (by simp)
    · exact absurd hpr (by simp)
    · by_cases hloc : er.location.isNone
      · rw [if_pos hloc] at hpr
        exact absurd hpr (by simp)
      · rw [if_neg hloc] at hpr
        obtain rfl := Option.some.inj hpr
        exact h2

/-- **C5** (witness): the theorem applied at concrete inputs — an
unknown code has no rank, two equal-valued codes coincide, and the row
built from `recSeoulIG` has the rank of its level. -/
theorem level_mapping_exact_witness :
    LEVEL_MAPPING "B2" = none ∧
    mapLevel (PyVal.vStr "IG") = some 1 ∧
    (load_all_rows [recSeoulIG]).length = 1 ∧
    (∀ r ∈ load_all_rows [recSeoulIG],
      mapLevel r.english_level = some r.english_level_numeric) :=
  ⟨level_mapping_exact.2.2.1 "B2" (by decide),
   level_mapping_exact.1.1,
   rfl,
   fun r hr => level_mapping_exact.2.2.2 [recSeoulIG] r hr⟩

/-- **C6**: for every integer age `a ≥ 0` the bucket is exactly one of
the five fixed labels, with the contiguous non-overlapping boundaries
`<25`, `25–29`, `30–34`, `35–39`, `≥40`; an absent/non-numeric age
(pandas `NaN`) returns the `"미상"` sentinel instead of raising. -/
theorem create_age_groups_buckets :
    (∀ a : ℤ, 0 ≤ a →
      create_age_groups (some (a : ℚ)) ∈
        ["20대 초반", "20대 후반", "30대 초반", "30대 후반", "40대 이상"] ∧
      (create_age_groups (some (a : ℚ)) = "20대 초반" ↔ a < 25) ∧
      (create_age_groups (some (a : ℚ)) = "20대 후반" ↔ 25 ≤ a ∧ a ≤ 29) ∧
      (create_age_groups (some (a : ℚ)) = "30대 초반" ↔ 30 ≤ a ∧ a ≤ 34) ∧
      (create_age_groups (some (a : ℚ)) = "30대 후반" ↔ 35 ≤ a ∧ a ≤ 39) ∧
      (create_age_groups (some (a : ℚ)) = "40대 이상" ↔ 40 ≤ a)) ∧
    create_age_groups none = "미상" := by
  refine ⟨?_, rfl⟩
  intro a _
  simp only [create_age_groups, pyInt_intCast]
  split_ifs <;> simp_all <;> omega

/-- **C6** (witness): the theorem applied at the ages 24, 25, 39, 40
named by the spec, and at an absent age. -/
theorem create_age_groups_buckets_witness :
    create_age_groups (some ((24 : ℤ) : ℚ)) = "20대 초반" ∧
    create_age_groups (some ((25 : ℤ) : ℚ)) = "20대 후반" ∧
    create_age_groups (some ((39 : ℤ) : ℚ)) = "30대 후반" ∧
    create_age_groups (some ((40 : ℤ) : ℚ)) = "40대 이상" ∧
    create_age_groups none = "미상" :=
  ⟨((create_age_groups_buckets.1 24 (by norm_num)).2.1).mpr (by norm_num),
   ((create_age_groups_buckets.1 25 (by norm_num)).2.2.1).mpr (by norm_num),
   ((create_age_groups_buckets.1 39 (by norm_num)).2.2.2.2.1).mpr (by norm_num),
   ((create_age_groups_buckets.1 40 (by norm_num)).2.2.2.2.2).mpr (by norm_num),
   create_age_groups_buckets.2⟩

/- ===== Claims about the Hypothesis Evaluators ===== -/

/-- **C3**: each evaluator enforces its minimum sample size as a
precondition reported as the insufficient-data error and never as a
degraded verdict: H1 fails exactly when the filtered table has fewer
than 10 rows, H2/H3 fail exactly when one of their two groups has
fewer than 5 rows, and otherwise the evaluation proceeds to a result
(so 4 metropolitan vs. 10 non-metropolitan rows errors, while 5 and 5
proceeds). -/
theorem evaluators_sample_size_gate :
    ∀ (st : StatsOracle) (df : List PRow) (fl : FilterRequest),
      (analyze_hypothesis1 st df fl = .error "분석에 충분한 데이터가 없습니다." ↔
        (apply_filters df fl).length < 10) ∧
      (evalOk (analyze_hypothesis1 st df fl) = true ↔
        ¬ (apply_filters df fl).length < 10) ∧
      (analyze_hypothesis2 st df fl = .error "각 그룹에 충분한 데이터가 없습니다." ↔
        ((metro_scores df fl).length < 5 ∨ (non_metro_scores df fl).length < 5)) ∧
      (evalOk (analyze_hypothesis2 st df fl) = true ↔
        ¬ ((metro_scores df fl).length < 5 ∨ (non_metro_scores df fl).length < 5)) ∧
      (analyze_hypothesis3 st df fl = .error "각 그룹에 충분한 데이터가 없습니다." ↔
        ((exp_scores df fl).length < 5 ∨ (no_exp_scores df fl).length < 5)) ∧
      (evalOk (analyze_hypothesis3 st df fl) = true ↔
        ¬ ((exp_scores df fl).length < 5 ∨ (no_exp_scores df fl).length < 5)) := by
  intro st df fl
  refine ⟨?_, ?_, ?_, ?_, ?_, ?_⟩ <;>
    simp only [analyze_hypothesis1, analyze_hypothesis2, analyze_hypothesis3] <;>
    split_ifs with h <;> simp [evalOk, h]

/-- Characterization of the shared H2/H3 verdict conditional. -/
theorem groupVerdict_spec (p m1 m2 : ℚ) :
    (groupVerdict p m1 m2 = "채택" ↔ p < 1/20 ∧ m1 < m2) ∧
    (groupVerdict p m1 m2 = "기각" ↔ p < 1/20 ∧ m2 < m1) ∧
    (groupVerdict p m1 m2 = "판단불가" ↔
      ¬ (p < 1/20 ∧ m1 < m2) ∧ ¬ (p < 1/20 ∧ m2 < m1)) := by
  unfold groupVerdict
  split_ifs with h1 h2
  · exact ⟨iff_of_false (by simp) (fun h => lt_asymm h1.2 h.2),
      iff_of_true rfl h1,
      iff_of_false (by simp) (fun h => h.2 h1)⟩
  · exact ⟨iff_of_true rfl h2,
      iff_of_false (by simp) (fun h => lt_asymm h2.2 h.2),
      iff_of_false (by simp) (fun h => h.1 h2)⟩
  · exact ⟨iff_of_false (by simp) h2,
      iff_of_false (by simp) h1,
      iff_of_true rfl ⟨h2, h1⟩⟩

/-- **C1**: past the 5-per-group gate, H2's verdict is accepted iff
the t-test p-value is `< 0.05` and the metropolitan mean numeric level
is strictly below the non-metropolitan one, rejected iff `p < 0.05`
with the metropolitan mean strictly above, and inconclusive in every
other case; H3 obeys the identical rule over the experience
partition.  (Verdict strings: 채택 = accepted, 기각 = rejected,
판단불가 = inconclusive.) -/
theorem h2_h3_verdict_rule :
    ∀ (st : StatsOracle) (df : List PRow) (fl : FilterRequest),
      (¬ ((metro_scores df fl).length < 5 ∨ (non_metro_scores df fl).length < 5) →
        (verdictOf (analyze_hypothesis2 st df fl) = "채택" ↔
          (st.ttest_ind (metro_scores df fl) (non_metro_scores df fl)).2 < 1/20 ∧
          seriesMean (metro_scores df fl) < seriesMean (non_metro_scores df fl)) ∧
        (verdictOf (analyze_hypothesis2 st df fl) = "기각" ↔
          (st.ttest_ind (metro_scores df fl) (non_metro_scores df fl)).2 < 1/20 ∧
          seriesMean (non_metro_scores df fl) < seriesMean (metro_scores df fl)) ∧
        (verdictOf (analyze_hypothesis2 st df fl) = "판단불가" ↔
          ¬ ((st.ttest_ind (metro_scores df fl) (non_metro_scores df fl)).2 < 1/20 ∧
             seriesMean (metro_scores df fl) < seriesMean (non_metro_scores df fl)) ∧
          ¬ ((st.ttest_ind (metro_scores df fl) (non_metro_scores df fl)).2 < 1/20 ∧
             seriesMean (non_metro_scores df fl) < seriesMean (metro_scores df fl)))) ∧
      (¬ ((exp_scores df fl).length < 5 ∨ (no_exp_scores df fl).length < 5) →
        (verdictOf (analyze_hypothesis3 st df fl) = "채택" ↔
          (st.ttest_ind (exp_scores df fl) (no_exp_scores df fl)).2 < 1/20 ∧
          seriesMean (exp_scores df fl) < seriesMean (no_exp_scores df fl)) ∧
        (verdictOf (analyze_hypothesis3 st df fl) = "기각" ↔
          (st.ttest_ind (exp_scores df fl) (no_exp_scores df fl)).2 < 1/20 ∧
          seriesMean (no_exp_scores df fl) < seriesMean (exp_scores df fl)) ∧
        (verdictOf (analyze_hypothesis3 st df fl) = "판단불가" ↔
          ¬ ((st.ttest_ind (exp_scores df fl) (no_exp_scores df fl)).2 < 1/20 ∧
             seriesMean (exp_scores df fl) < seriesMean (no_exp_scores df fl)) ∧
          ¬ ((st.ttest_ind (exp_scores df fl) (no_exp_scores df fl)).2 < 1/20 ∧
             seriesMean (no_exp_scores df fl) < seriesMean (exp_scores df fl)))) := by
  intro st df fl
  constructor
  · intro h
    have hs := groupVerdict_spec
      (st.ttest_ind (metro_scores df fl) (non_metro_scores df fl)).2
      (seriesMean (metro_scores df fl)) (seriesMean (non_metro_scores df fl))
    simpa [analyze_hypothesis2, h, verdictOf] using hs
  · intro h
    have hs := groupVerdict_spec
      (st.ttest_ind (exp_scores df fl) (no_exp_scores df fl)).2
      (seriesMean (exp_scores df fl)) (seriesMean (no_exp_scores df fl))
    simpa [analyze_hypothesis3, h, verdictOf] using hs

/-- **C1** (witness): the rule applied to a concrete 5-vs-5 table
under the neutral oracle — p = 1 is not significant, so both H2 and
H3 report the inconclusive verdict. -/
theorem h2_h3_verdict_rule_witness :
    verdictOf (analyze_hypothesis2 constOracle wdf10 {}) = "판단불가" ∧
    verdictOf (analyze_hypothesis3 constOracle wdf10 {}) = "판단불가" := by
  have hnosig : ∀ l1 l2 : List ℚ, ¬ ((constOracle.ttest_ind l1 l2).2 < 1/20) := by
    intro l1 l2
    simp only [constOracle]
    norm_num
  refine ⟨((h2_h3_verdict_rule constOracle wdf10 {}).1 (by decide)).2.2.mpr
      ⟨fun h => hnosig _ _ h.1, fun h => hnosig _ _ h.1⟩,
    ((h2_h3_verdict_rule constOracle wdf10 {}).2 (by decide)).2.2.mpr
      ⟨fun h => hnosig _ _ h.1, fun h => hnosig _ _ h.1⟩⟩

/-- **C7**: past the ≥10-row gate, a filtered table with exactly one
distinct age group makes H1 report the fixed neutral ANOVA pair
`(0, 1)` without calling the statistic (the whole response is
independent of the ANOVA oracle once the Pearson/Spearman outputs are
fixed), more than one distinct group reports exactly
`f_oneway` on the age-group partition, and in either case the verdict
is a function of the Pearson output alone. -/
theorem h1_anova_degenerate_rule :
    ∀ (st st2 : StatsOracle) (df : List PRow) (fl : FilterRequest),
      ¬ (apply_filters df fl).length < 10 →
      ((age_groups_of df fl).length = 1 →
        statOf (analyze_hypothesis1 st df fl) "anova_f_stat" = some (.num 0) ∧
        statOf (analyze_hypothesis1 st df fl) "anova_p_value" = some (.num 1) ∧
        (st.pearsonr = st2.pearsonr → st.spearmanr = st2.spearmanr →
          analyze_hypothesis1 st df fl = analyze_hypothesis1 st2 df fl)) ∧
      (1 < (age_groups_of df fl).length →
        statOf (analyze_hypothesis1 st df fl) "anova_f_stat" =
          some (.num (st.f_oneway (anova_groups df fl)).1) ∧
        statOf (analyze_hypothesis1 st df fl) "anova_p_value" =
          some (.num (st.f_oneway (anova_groups df fl)).2)) ∧
      (st.pearsonr = st2.pearsonr →
        verdictOf (analyze_hypothesis1 st df fl) = verdictOf (analyze_hypothesis1 st2 df fl)) := by
  intro st st2 df fl h10
  refine ⟨?_, ?_, ?_⟩
  · intro hone
    have hnot : ¬ 1 < (age_groups_of df fl).length := by omega
    refine ⟨?_, ?_, ?_⟩
    · simp [analyze_hypothesis1, h10, hnot, statOf, List.lookup]
    · simp [analyze_hypothesis1, h10, hnot, statOf, List.lookup]
    · intro hp hsp
      simp [analyze_hypothesis1, h10, hnot, hp, hsp]
  · intro hmany
    constructor
    · simp [analyze_hypothesis1, h10, hmany, statOf, List.lookup]
    · simp [analyze_hypothesis1, h10, hmany, statOf, List.lookup]
  · intro hp
    simp [analyze_hypothesis1, h10, verdictOf, hp]

/-- **C7** (witness): on the single-age-group table `wdf10` the
reported ANOVA pair is the neutral `(0, 1)` and two oracles differing
only in `f_oneway` give identical responses; on the two-group table
`wdf10b` the reported pair is the oracle's `f_oneway` output; verdicts
agree whenever the Pearson outputs do. -/
theorem h1_anova_degenerate_rule_witness :
    statOf (analyze_hypothesis1 constOracle wdf10 {}) "anova_f_stat" = some (.num 0) ∧
    statOf (analyze_hypothesis1 constOracle wdf10 {}) "anova_p_value" = some (.num 1) ∧
    analyze_hypothesis1 constOracle wdf10 {} = analyze_hypothesis1 constOracle2 wdf10 {} ∧
    statOf (analyze_hypothesis1 constOracle2 wdf10b {}) "anova_f_stat" =
      some (.num (constOracle2.f_oneway (anova_groups wdf10b {})).1) ∧
    verdictOf (analyze_hypothesis1 constOracle wdf10 {}) =
      verdictOf (analyze_hypothesis1 constOracle2 wdf10 {}) := by
  have h1 := h1_anova_degenerate_rule constOracle constOracle2 wdf10 {} (by decide)
  have h2 := h1_anova_degenerate_rule constOracle2 constOracle wdf10b {} (by decide)
  exact ⟨(h1.1 (by decide)).1, (h1.1 (by decide)).2.1,
    (h1.1 (by decide)).2.2 rfl rfl,
    (h2.2.1 (by decide)).1,
    h1.2.2 rfl⟩

/- ===== Claims about the Ingestion Stager ===== -/

/-- **C8**: the stager derives the storage key purely from (year,
month, day, level, participant, filename) and uploads only when no
object exists at that key: staging a valid file whose key is already
stored changes nothing and counts 0, staging a fresh one stores the
key exactly once and counts 1, and immediately re-staging the same
file leaves the store unchanged with a 0 count. -/
theorem upload_skip_on_exists :
    (∀ (store : List String) (fi : FileInfo),
      is_valid_yyyymmdd fi.date = true → s3Key fi ∈ store →
      upload_to_s3 store [fi] = (store, 0)) ∧
    (∀ (store : List String) (fi : FileInfo),
      is_valid_yyyymmdd fi.date = true → s3Key fi ∉ store →
      upload_to_s3 store [fi] = (store ++ [s3Key fi], 1) ∧
      ((upload_to_s3 store [fi]).1).count (s3Key fi) = 1 ∧
      upload_to_s3 (upload_to_s3 store [fi]).1 [fi] = ((upload_to_s3 store [fi]).1, 0)) := by
  constructor
  · intro store fi hv hm
    simp [upload_to_s3, hv, hm]
  · intro store fi hv hm
    have h1 : upload_to_s3 store [fi] = (store ++ [s3Key fi], 1) := by
      simp [upload_to_s3, hv, hm]
    refine ⟨h1, ?_, ?_⟩
    · rw [h1]
      simp [List.count_append, List.count_eq_zero.mpr hm]
    · rw [h1]
      simp [upload_to_s3, hv]

/-- **C8** (witness): staging `wfile` into an empty store uploads it
once under its derived key; re-staging counts 0 and leaves the single
stored object in place. -/
theorem upload_skip_on_exists_witness :
    upload_to_s3 [] [wfile] = ([s3Key wfile], 1) ∧
    ((upload_to_s3 [] [wfile]).1).count (s3Key wfile) = 1 ∧
    upload_to_s3 (upload_to_s3 [] [wfile]).1 [wfile] = ((upload_to_s3 [] [wfile]).1, 0) ∧
    upload_to_s3 [s3Key wfile] [wfile] = ([s3Key wfile], 0) := by
  have h := (upload_skip_on_exists.2 [] wfile (by decide) (by simp))
  exact ⟨h.1, h.2.1, h.2.2,
    upload_skip_on_exists.1 [s3Key wfile] wfile (by decide) (by simp)⟩

/- ===== Claims about the Record Extractor ===== -/

/-- `Except` bind on a success. -/
theorem except_bind_ok {ε α β : Type} (a : α) (f : α → Except ε β) :
    (Except.ok a >>= f) = f a := rfl

/-- `Except` bind on an error. -/
theorem except_bind_error {ε α β : Type} (e : ε) (f : α → Except ε β) :
    ((Except.error e : Except ε α) >>= f) = Except.error e := rfl

/-- The combo comprehension fails exactly on a bad combo entry. -/
theorem comboScores_error_iff (les : List (String × PyVal)) :
    comboScores les = .error () ↔ les.any badComboEntry = true := by
  induction les with
  | nil => simp [comboScores]
  | cons kv rest ih =>
    rcases kv with ⟨k, v⟩
    simp only [comboScores, List.any_cons]
    by_cases hk : (strStartsWith k "Combo" && !(v.eqStr "")) = true
    · rw [if_pos hk]
      rcases hf : pyFloat v with _ | q
      · have hb : badComboEntry (k, v) = true := by
          simp [badComboEntry, hk, hf]
        simp [hf, hb]
      · have hb : badComboEntry (k, v) = false := by
          simp [badComboEntry, hf]
        simp only [hf, hb, Bool.false_or]
        rw [← ih]
        rcases h2 : comboScores rest with u | cs <;>
          simp [h2, except_bind_ok, except_bind_error]
    · rw [if_neg hk]
      have hk2 : (strStartsWith k "Combo" && !(v.eqStr "")) = false := by
        simpa using hk
      have hb : badComboEntry (k, v) = false := by
        simp [badComboEntry, hk2]
      rw [hb, Bool.false_or]
      exact ih

/-- Reaching the completeness gate with some required field falsy
returns the gate's `None`. -/
theorem extract_gate_noRow (es ses les : List (String × PyVal))
    (cs : List (String × ℚ)) (mes : List (String × PyVal))
    (hspk : (es.lookup "speaker").getD (.vDict []) = .vDict ses)
    (hlvl : (ses.lookup "level").getD (.vDict []) = .vDict les)
    (hc : comboScores les = .ok cs)
    (hmd : (es.lookup "metadata").getD (.vDict []) = .vDict mes)
    (hgate : (!((ses.lookup "age").getD .vNone).truthy ||
              !((ses.lookup "location").getD (.vStr "")).truthy ||
              !((les.lookup "final").getD (.vStr "")).truthy) = true) :
    extract_analysis_data (.vDict es) = .noRow := by
  simp only [Bool.or_eq_true, Bool.not_eq_true'] at hgate
  simp [extract_analysis_data, extractCore, PyVal.get, PyVal.items, hspk, hlvl, hc, hmd,
    except_bind_ok]
  rw [if_pos hgate]
  rfl

/-- If the extractor's own access path resolves `age`, `location`, or
`english_level` to a Python-falsy value, no row comes back. -/
theorem extract_no_row_of_falsy (data v : PyVal)
    (hres : resolveAge data = .ok v ∨ resolveLocation data = .ok v ∨
      resolveLevel data = .ok v)
    (hv : v.truthy = false) :
    (extract_analysis_data data).isRow = false := by
  cases data with
  | vNone => rfl
  | vInt n => rfl
  | vStr s => rfl
  | vDict es =>
    rcases hspk : (es.lookup "speaker").getD (.vDict []) with _ | n | s | ses
    case vNone =>
      simp [extract_analysis_data, extractCore, PyVal.get, hspk, except_bind_ok,
        except_bind_error, ExtractResult.isRow]
    case vInt =>
      simp [extract_analysis_data, extractCore, PyVal.get, hspk, except_bind_ok,
        except_bind_error, ExtractResult.isRow]
    case vStr =>
      simp [extract_analysis_data, extractCore, PyVal.get, hspk, except_bind_ok,
        except_bind_error, ExtractResult.isRow]
    case vDict =>
      rcases hlvl : (ses.lookup "level").getD (.vDict []) with _ | n | s | les
      case vNone =>
        simp [extract_analysis_data, extractCore, PyVal.get, hspk, hlvl, except_bind_ok,
          except_bind_error, ExtractResult.isRow]
      case vInt =>
        simp [extract_analysis_data, extractCore, PyVal.get, hspk, hlvl, except_bind_ok,
          except_bind_error, ExtractResult.isRow]
      case vStr =>
        simp [extract_analysis_data, extractCore, PyVal.get, hspk, hlvl, except_bind_ok,
          except_bind_error, ExtractResult.isRow]
      case vDict =>
        rcases hc : comboScores les with u | cs
        · simp [extract_analysis_data, extractCore, PyVal.get, PyVal.items, hspk, hlvl, hc,
            except_bind_ok, except_bind_error, ExtractResult.isRow]
        · rcases hmd : (es.lookup "metadata").getD (.vDict []) with _ | n | s | mes
          case vNone =>
            simp [extract_analysis_data, extractCore, PyVal.get, PyVal.items, hspk, hlvl, hc,
              hmd, except_bind_ok, except_bind_error, ExtractResult.isRow]
          case vInt =>
            simp [extract_analysis_data, extractCore, PyVal.get, PyVal.items, hspk, hlvl, hc,
              hmd, except_bind_ok, except_bind_error, ExtractResult.isRow]
          case vStr =>
            simp [extract_analysis_data, extractCore, PyVal.get, PyVal.items, hspk, hlvl, hc,
              hmd, except_bind_ok, except_bind_error, ExtractResult.isRow]
          case vDict =>
            have hgate : (!((ses.lookup "age").getD .vNone).truthy ||
                !((ses.lookup "location").getD (.vStr "")).truthy ||
                !((les.lookup "final").getD (.vStr "")).truthy) = true := by
              rcases hres with h | h | h
              · have : (ses.lookup "age").getD .vNone = v := by
                  simpa [resolveAge, PyVal.get, hspk, except_bind_ok] using h
                simp [this, hv]
              · have : (ses.lookup "location").getD (.vStr "") = v := by
                  simpa [resolveLocation, PyVal.get, hspk, except_bind_ok] using h
                simp [this, hv]
              · have : (les.lookup "final").getD (.vStr "") = v := by
                  simpa [resolveLevel, PyVal.get, hspk, hlvl, except_bind_ok] using h
                simp [this, hv]
            rw [extract_gate_noRow es ses les cs mes hspk hlvl hc hmd hgate]
            rfl

/-- On structurally valid input with no raising combo entry, the
`try` body never raises: the outcome is a row or the gate's `None`. -/
theorem extract_no_error_of_valid (data : PyVal)
    (hval : structurallyValid data = true) (hbad : hasBadCombo data = false) :
    extract_analysis_data data ≠ .extractError := by
  cases data with
  | vNone => simp [structurallyValid] at hval
  | vInt n => simp [structurallyValid] at hval
  | vStr s => simp [structurallyValid] at hval
  | vDict es =>
    rcases hspk : (es.lookup "speaker").getD (.vDict []) with _ | n | s | ses <;>
      rw [structurallyValid] at hval <;> rw [hspk] at hval <;>
      [skip; skip; skip; skip] <;> simp at hval
    rcases hlvl : (ses.lookup "level").getD (.vDict []) with _ | n | s | les <;>
      rw [hlvl] at hval <;> [skip; skip; skip; skip] <;> simp at hval
    rcases hmd : (es.lookup "metadata").getD (.vDict []) with _ | n | s | mes <;>
      rw [hmd] at hval <;> [skip; skip; skip; skip] <;> simp at hval
    simp only [hasBadCombo, hspk, hlvl] at hbad
    rcases hc : comboScores les with u | cs
    · rw [comboScores_error_iff] at hc
      rw [hc] at hbad
      cases hbad
    · simp only [extract_analysis_data, extractCore, PyVal.get, PyVal.items, hspk, hlvl, hc,
        hmd, except_bind_ok]
      by_cases hg : (!((ses.lookup "age").getD .vNone).truthy ||
          !((ses.lookup "location").getD (.vStr "")).truthy ||
          !((les.lookup "final").getD (.vStr "")).truthy) = true
      · rw [if_pos hg]
        simp [pure, Except.pure, except_bind_ok]
      · rw [if_neg hg]
        simp [pure, Except.pure, except_bind_ok]

/-- A record that yields no row contributes nothing to the built
table. -/
theorem load_all_rows_drop (d : PyVal)
    (h : (extract_analysis_data d).isRow = false) :
    ∀ rest, load_all_rows (d :: rest) = load_all_rows rest := by
  intro rest
  rcases he : extract_analysis_data d with r | _ | _
  · rw [he] at h
    cases h
  · simp [load_all_rows, preprocess_dataframe, List.filterMap_cons, he]
  · simp [load_all_rows, preprocess_dataframe, List.filterMap_cons, he]

/-- **C2** (counterexample): `recBadCombo` is a mapping at every
level the extractor touches — structurally valid input — yet
`float("abc")` raises inside the combo comprehension, so the record is
reported as an extraction error, against the claim that only
structurally invalid input is. -/
theorem extraction_error_counterexample :
    structurallyValid recBadCombo = true ∧
    extract_analysis_data recBadCombo = .extractError := ⟨rfl, rfl⟩

/-- **C2** (amended): a raw record whose age, location, or
english_level resolves to empty/absent yields no row and is absent
from the built table, never partially included; an extraction error is
reported only for structurally invalid input *or for a record whose
combo entry carries a non-empty value that float-parsing rejects* (so
a missing key alone never raises). -/
theorem completeness_gate_drops :
    ∀ data : PyVal,
      ((∃ v, (resolveAge data = .ok v ∨ resolveLocation data = .ok v ∨
          resolveLevel data = .ok v) ∧ (v = .vNone ∨ v = .vStr "")) →
        (extract_analysis_data data).isRow = false ∧
        (∀ rest, load_all_rows (data :: rest) = load_all_rows rest)) ∧
      (extract_analysis_data data = .extractError →
        structurallyValid data = false ∨ hasBadCombo data = true) := by
  intro data
  constructor
  · rintro ⟨v, hres, hv⟩
    have hfalsy : v.truthy = false := by
      rcases hv with rfl | rfl <;> rfl
    have h := extract_no_row_of_falsy data v hres hfalsy
    exact ⟨h, load_all_rows_drop data h⟩
  · intro herr
    by_contra hcon
    push_neg at hcon
    obtain ⟨h1, h2⟩ := hcon
    exact extract_no_error_of_valid data (by simpa using h1) (by simpa using h2) herr

/-- **C2** (witness): the record missing `location` resolves it to
the empty-string default, yields no row, contributes nothing to the
built table and raises nothing; and the bad-combo record's error is
covered by the amended error condition. -/
theorem completeness_gate_drops_witness :
    (extract_analysis_data recNoLocation).isRow = false ∧
    load_all_rows [recNoLocation] = load_all_rows [] ∧
    extract_analysis_data recNoLocation ≠ .extractError ∧
    (structurallyValid recBadCombo = false ∨ hasBadCombo recBadCombo = true) := by
  have h := (completeness_gate_drops recNoLocation).1
    ⟨.vStr "", Or.inr (Or.inl rfl), Or.inr rfl⟩
  have he : extract_analysis_data recNoLocation = .noRow := rfl
  exact ⟨h.1, h.2 [], by rw [he]; simp, (completeness_gate_drops recBadCombo).2 rfl⟩

/-- **C9**: the completeness gate tests Python truthiness, not
presence — any record whose resolved age is falsy (`0`, `""`, `None`,
…) yields no row and is dropped from the built table, even when the
age key is present. -/
theorem truthy_gate_drops_falsy_age :
    ∀ (data v : PyVal), resolveAge data = .ok v → v.truthy = false →
      (extract_analysis_data data).isRow = false ∧
      (∀ rest, load_all_rows (data :: rest) = load_all_rows rest) := by
  intro data v hres hv
  have h := extract_no_row_of_falsy data v (Or.inl hres) hv
  exact ⟨h, load_all_rows_drop data h⟩

/-- **C9** (witness): the rule applied to a record with age `0` and to
one with age `""` — both present, both dropped. -/
theorem truthy_gate_drops_falsy_age_witness :
    (extract_analysis_data recAgeZero).isRow = false ∧
    load_all_rows [recAgeZero] = [] ∧
    (extract_analysis_data recAgeEmpty).isRow = false ∧
    load_all_rows [recAgeEmpty] = [] := by
  have h0 := truthy_gate_drops_falsy_age recAgeZero (.vInt 0) rfl rfl
  have h1 := truthy_gate_drops_falsy_age recAgeEmpty (.vStr "") rfl rfl
  exact ⟨h0.1, by simpa using h0.2 [], h1.1, by simpa using h1.2 []⟩
